import Mathlib

/-!
Verification of the reproc child-process library (POSIX side).

The definitions below are a shallow embedding of the C sources:
* `src/reproc/src/reproc.c` — the process lifecycle engine (`reproc_t`,
  `parse_options`, `expiry`, `reproc_start`, `reproc_read`, `reproc_write`,
  `reproc_wait`, `reproc_terminate`, `reproc_kill`, `reproc_destroy`);
* `src/reproc/src/sink.c` — `reproc_drain`;
* `src/reproc/src/posix/process.c` — `parse_exit_status`, `path_is_relative`;
* `src/reproc/src/posix/error.c` — the error constants (Linux errno values).

Machine integers are modelled as unbounded `Int`/`Nat`; the C sources
document that the relevant arithmetic stays in range (for example the
comment above the cast in `expiry`).  Calls into the operating system
(`reproc_now`, `pipe_wait`, `pipe_read`, `pipe_write`, `process_start`,
`process_wait`, ...) are modelled by explicit oracle values handed to the
embedded functions, and every embedded operation additionally returns the
list of OS calls it performed so that "returns without touching the OS"
claims are expressible.
-/

/-! ### Error and sentinel constants

From `src/reproc/src/posix/error.c`: the public error constants are the
negated Linux errno values. From `src/reproc/src/reproc.c` lines 28-35. -/

def REPROC_EINVAL : Int := -22

def REPROC_EPIPE : Int := -32

def REPROC_ETIMEDOUT : Int := -110

def UINT8_MAX : Int := 255

/-- `src/reproc/src/reproc.c` line 30: `const int REPROC_SIGKILL = UINT8_MAX + 9;` -/
def REPROC_SIGKILL : Int := UINT8_MAX + 9

/-- `src/reproc/src/reproc.c` line 31: `const int REPROC_SIGTERM = UINT8_MAX + 15;` -/
def REPROC_SIGTERM : Int := UINT8_MAX + 15

def REPROC_INFINITE : Int := -1

def REPROC_DEADLINE : Int := -2

def REPROC_NONBLOCKING : Int := -3

/-- `src/reproc/src/reproc.c` line 28. -/
def STATUS_NOT_STARTED : Int := -1

def STATUS_IN_PROGRESS : Int := -2

def STATUS_IN_CHILD : Int := -3

/-- POSIX invalid-handle sentinel (`HANDLE_INVALID` / `PIPE_INVALID` /
`PROCESS_INVALID` are all `-1` on POSIX). -/
def PIPE_INVALID : Int := -1

def PROCESS_INVALID : Int := -1

/-! ### POSIX wait status parsing (`src/reproc/src/posix/process.c` 363-372)

The glibc wait-status macros on a raw status word `s`:
`WIFEXITED(s) = ((s & 0x7f) == 0)`, `WEXITSTATUS(s) = ((s >> 8) & 0xff)`,
`WTERMSIG(s) = (s & 0x7f)`. -/

def WIFEXITED (status : Nat) : Bool := status % 128 == 0

def WEXITSTATUS (status : Nat) : Nat := (status / 256) % 256

def WTERMSIG (status : Nat) : Nat := status % 128

/-- Embeds `parse_exit_status` from `src/reproc/src/posix/process.c`:
a normal exit yields `WEXITSTATUS`, a signal termination yields
`WTERMSIG` (the bare signal number, with no offset added). -/
def parse_exit_status (status : Nat) : Nat :=
  if WIFEXITED status then WEXITSTATUS status else WTERMSIG status

/-! ### Option bundle and engine state

The public header of this engine version is absent from the sources (only
an older header survives), but `reproc.c` fixes the shape of
`reproc_options` and `reproc_t` (lines 15-26) and relies on
`REPROC_REDIRECT_PIPE` being the zero default (`options->redirect.in == 0`
checks).  Enum values follow the C declaration order. -/

def REPROC_STOP_NOOP : Nat := 0

def REPROC_STOP_WAIT : Nat := 1

def REPROC_STOP_TERMINATE : Nat := 2

def REPROC_STOP_KILL : Nat := 3

def REPROC_REDIRECT_PIPE : Nat := 0

def REPROC_REDIRECT_INHERIT : Nat := 1

def REPROC_REDIRECT_DISCARD : Nat := 2

structure reproc_stop_action where
  action : Nat
  timeout : Int
deriving DecidableEq, Repr

structure reproc_stop_actions where
  first : reproc_stop_action
  second : reproc_stop_action
  third : reproc_stop_action
deriving DecidableEq, Repr

/-- The option bundle consumed by `reproc_start`. `input_data` models the
nullness of the C `options.input.data` pointer, `input_size` the byte
count; the other fields carry the same values as the C struct. -/
structure reproc_options where
  environment : Option (List String) := none
  working_directory : Option String := none
  redirect_in : Nat := 0
  redirect_out : Nat := 0
  redirect_err : Nat := 0
  inherit : Bool := false
  discard : Bool := false
  input_data : Bool := false
  input_size : Nat := 0
  fork : Bool := false
  timeout : Int := 0
  deadline : Int := 0
  stop : reproc_stop_actions :=
    ⟨⟨REPROC_STOP_NOOP, 0⟩, ⟨REPROC_STOP_NOOP, 0⟩, ⟨REPROC_STOP_NOOP, 0⟩⟩
deriving DecidableEq, Repr

/-- The engine state `struct reproc_t` (reproc.c lines 15-26). Handles are
POSIX file descriptors / pids, `-1` when invalid. -/
structure reproc_t where
  handle : Int
  stdio_in : Int
  stdio_out : Int
  stdio_err : Int
  status : Int
  stop : reproc_stop_actions
  timeout : Int
  deadline : Int
deriving DecidableEq, Repr

/-- `reproc_new` (reproc.c 188-204): fields named in the C compound
literal get their sentinel values, the rest (the stop plan) are
zero-initialized. -/
def reproc_new : reproc_t :=
  { handle := PROCESS_INVALID
    stdio_in := PIPE_INVALID
    stdio_out := PIPE_INVALID
    stdio_err := PIPE_INVALID
    status := STATUS_NOT_STARTED
    stop := ⟨⟨REPROC_STOP_NOOP, 0⟩, ⟨REPROC_STOP_NOOP, 0⟩, ⟨REPROC_STOP_NOOP, 0⟩⟩
    timeout := REPROC_INFINITE
    deadline := REPROC_INFINITE }

/-- The `is_noop` test of `parse_options` (reproc.c 93-95). -/
def stop_is_noop (s : reproc_stop_actions) : Bool :=
  s.first.action == REPROC_STOP_NOOP && s.second.action == REPROC_STOP_NOOP &&
    s.third.action == REPROC_STOP_NOOP

/-- The `options->inherit` block of `parse_options` (reproc.c 46-55,
update part): set all three redirect modes to inherit. -/
def apply_inherit (o : reproc_options) : reproc_options :=
  if o.inherit then
    { o with redirect_in := REPROC_REDIRECT_INHERIT
             redirect_out := REPROC_REDIRECT_INHERIT
             redirect_err := REPROC_REDIRECT_INHERIT } else o

/-- The `options->discard` block of `parse_options` (reproc.c 57-66,
update part): set all three redirect modes to discard. -/
def apply_discard (o : reproc_options) : reproc_options :=
  if o.discard then
    { o with redirect_in := REPROC_REDIRECT_DISCARD
             redirect_out := REPROC_REDIRECT_DISCARD
             redirect_err := REPROC_REDIRECT_DISCARD } else o

/-- The timeout/deadline normalization of `parse_options` (reproc.c
81-91): a zero per-call timeout becomes infinite, the `REPROC_NONBLOCKING`
sentinel becomes zero, a zero deadline becomes infinite. -/
def normalize_timeouts (o : reproc_options) : reproc_options :=
  { o with
    timeout := if o.timeout == 0 then REPROC_INFINITE
               else if o.timeout == REPROC_NONBLOCKING then 0
               else o.timeout
    deadline := if o.deadline == 0 then REPROC_INFINITE else o.deadline }

/-- The default stop plan installation of `parse_options` (reproc.c
93-102): when all three actions are noop, the first slot becomes
`{WAIT, DEADLINE}` and the second `{TERMINATE, INFINITE}`; the third slot
is untouched. -/
def apply_default_stop (o : reproc_options) : reproc_options :=
  if stop_is_noop o.stop then
    { o with stop :=
        ⟨⟨REPROC_STOP_WAIT, REPROC_DEADLINE⟩,
         ⟨REPROC_STOP_TERMINATE, REPROC_INFINITE⟩,
         o.stop.third⟩ } else o

/-- Embeds `parse_options` (reproc.c 37-105).  `argv` is `none` for a NULL
pointer, otherwise the list of arguments preceding the NULL terminator
(so `argv[0] == NULL` is the empty list).  Each `assert_return` becomes an
`Except.error REPROC_EINVAL` exit; the option updates happen in the same
order as in C (the checks of the discard and input blocks see the
redirect modes already rewritten by the preceding blocks). -/
def parse_options (argv : Option (List String)) (o0 : reproc_options) :
    Except Int reproc_options :=
  if (o0.redirect_in != 0 || o0.redirect_out != 0 || o0.redirect_err != 0) &&
      (o0.inherit || o0.discard) then Except.error REPROC_EINVAL
  else if o0.inherit &&
      (o0.redirect_in != 0 || o0.redirect_out != 0 || o0.redirect_err != 0 ||
        o0.discard) then Except.error REPROC_EINVAL
  else if (apply_inherit o0).discard &&
      ((apply_inherit o0).redirect_in != 0 ||
        (apply_inherit o0).redirect_out != 0 ||
        (apply_inherit o0).redirect_err != 0 ||
        (apply_inherit o0).inherit) then Except.error REPROC_EINVAL
  else if ((apply_discard (apply_inherit o0)).input_data ||
        (apply_discard (apply_inherit o0)).input_size > 0) &&
      (!(apply_discard (apply_inherit o0)).input_data ||
        (apply_discard (apply_inherit o0)).input_size == 0 ||
        (apply_discard (apply_inherit o0)).redirect_in != 0) then
    Except.error REPROC_EINVAL
  else if (apply_discard (apply_inherit o0)).fork && argv.isSome then
    Except.error REPROC_EINVAL
  else if !(apply_discard (apply_inherit o0)).fork &&
      (argv.isNone || argv.getD [] == []) then Except.error REPROC_EINVAL
  else
    Except.ok (apply_default_stop
      (normalize_timeouts (apply_discard (apply_inherit o0))))

/-- Embeds the decision of `reproc_destroy` (reproc.c 510-517): the stored
stop plan is replayed through `reproc_stop` exactly when the engine is
still running (`STATUS_IN_PROGRESS`); otherwise no stop action runs. -/
def reproc_destroy_stop_plan (p : reproc_t) : Option reproc_stop_actions :=
  if p.status == STATUS_IN_PROGRESS then some p.stop else none

/-! ### Timeout arithmetic and the I/O paths -/

/-- Tags for the OS interactions an engine operation performs (reading the
monotonic clock is not an OS wait/read/write and is not tagged). -/
inductive OsCall
  | wait
  | read
  | write
  | procwait
  | signal
deriving DecidableEq, Repr

/-- Embeds `expiry` (reproc.c 161-186); `now` stands for the
`reproc_now()` call performed when both sentinels have been ruled out. -/
def expiry (timeout : Int) (deadline : Int) (now : Int) : Int :=
  if timeout = REPROC_INFINITE ∧ deadline = REPROC_INFINITE then
    REPROC_INFINITE
  else if deadline = REPROC_INFINITE then timeout
  else if now ≥ deadline then 0
  else if timeout = REPROC_INFINITE then deadline - now
  else min timeout (deadline - now)

/-- Follows the spec's words (§4.4, §5): the effective blocking bound is
`min(per_call_timeout, deadline − now)` where `−1` acts as infinity and a
past deadline contributes zero.  Stated separately from `expiry` so the
two can be compared. -/
def spec_effective_bound (timeout : Int) (deadline : Int) (now : Int) :
    Int :=
  let remaining := if deadline = REPROC_INFINITE then REPROC_INFINITE
                   else max 0 (deadline - now)
  if timeout = REPROC_INFINITE then remaining
  else if remaining = REPROC_INFINITE then timeout
  else min timeout remaining

/-- Oracle for one `reproc_write` call: the clock value and the result of
the `pipe_write` OS call (bytes written, or a negative error). -/
structure WriteEvent where
  now : Int
  write_r : Int
deriving DecidableEq, Repr

/-- Embeds `reproc_write` (reproc.c 367-394).  `buffer_null` models
`buffer == NULL`.  Returns the result, the new engine state and the list
of OS write calls performed. -/
def reproc_write (p : reproc_t) (buffer_null : Bool) (size : Nat)
    (ev : WriteEvent) : Int × reproc_t × List OsCall :=
  if p.status = STATUS_IN_CHILD then (REPROC_EINVAL, p, [])
  else if buffer_null then
    if size ≠ 0 then (REPROC_EINVAL, p, []) else (0, p, [])
  else if p.stdio_in = PIPE_INVALID then (REPROC_EPIPE, p, [])
  else if expiry p.timeout p.deadline ev.now = 0 then
    (REPROC_ETIMEDOUT, p, [])
  else if ev.write_r = REPROC_EPIPE then
    (ev.write_r, { p with stdio_in := PIPE_INVALID }, [OsCall.write])
  else (ev.write_r, p, [OsCall.write])

deriving instance DecidableEq for Except

/-- Oracle for one iteration of the `reproc_read` loop: the clock value,
the `pipe_wait` outcome (an error, or the handle of the ready pipe) and
the `pipe_read` result on the ready pipe. -/
structure ReadEvent where
  now : Int
  wait_r : Except Int Int
  read_r : Int
deriving DecidableEq, Repr

/-- Modelled from the spec: the readiness multiplexer `pipe_wait` of this
engine version (its POSIX implementation is not among the sources; the
spec §4.1/§4.4 states that with all peers closed it returns the
stream-closed error).  With at least one valid pipe the outcome comes
from the oracle and one OS wait is performed; with both pipes invalid it
returns `REPROC_EPIPE` without an OS wait. -/
def pipe_wait (out : Int) (err : Int) (ev : Except Int Int) :
    Except Int Int × List OsCall :=
  if out = PIPE_INVALID ∧ err = PIPE_INVALID then
    (Except.error REPROC_EPIPE, [])
  else (ev, [OsCall.wait])

inductive REPROC_STREAM
  | IN
  | OUT
  | ERR
deriving DecidableEq, Repr

/-- The `while (true)` loop of `reproc_read` (reproc.c 329-364): compute
the effective timeout, return `REPROC_ETIMEDOUT` if it is zero, wait for a
ready pipe, read from it; a stream-closed read destroys that endpoint and
repeats the wait on the remaining pipe.  The result carries the stream
tag stored after the loop (`ready == process->stdio.out ? OUT : ERR`),
`none` when the loop exits without transferring bytes.  `none` overall
means the oracle schedule ended before the call returned. -/
def reproc_read_loop (p : reproc_t) :
    List ReadEvent → List OsCall →
      Option (Int × reproc_t × Option REPROC_STREAM × List OsCall)
  | [], _ => none
  | ev :: rest, acc =>
    if expiry p.timeout p.deadline ev.now = 0 then
      some (REPROC_ETIMEDOUT, p, none, acc)
    else
      match pipe_wait p.stdio_out p.stdio_err ev.wait_r with
      | (Except.error e, calls) => some (e, p, none, acc ++ calls)
      | (Except.ok ready, calls) =>
        if ev.read_r ≥ 0 then
          some (ev.read_r, p,
            some (if ready = p.stdio_out then REPROC_STREAM.OUT
                  else REPROC_STREAM.ERR),
            acc ++ calls ++ [OsCall.read])
        else if ev.read_r ≠ REPROC_EPIPE then
          some (ev.read_r, p, none, acc ++ calls ++ [OsCall.read])
        else if ready = p.stdio_out then
          reproc_read_loop { p with stdio_out := PIPE_INVALID } rest
            (acc ++ calls ++ [OsCall.read])
        else
          reproc_read_loop { p with stdio_err := PIPE_INVALID } rest
            (acc ++ calls ++ [OsCall.read])

/-- Embeds `reproc_read` (reproc.c 317-365): the argument guards followed
by the wait/read loop. -/
def reproc_read (p : reproc_t) (buffer_null : Bool)
    (evs : List ReadEvent) :
    Option (Int × reproc_t × Option REPROC_STREAM × List OsCall) :=
  if p.status = STATUS_IN_CHILD then some (REPROC_EINVAL, p, none, [])
  else if buffer_null then some (REPROC_EINVAL, p, none, [])
  else reproc_read_loop p evs []

/-- Oracle for one `reproc_wait` call: the clock value (used only to
translate the `REPROC_DEADLINE` sentinel) and the `process_wait` result
(a parsed exit status `≥ 0`, or a negative error such as
`REPROC_ETIMEDOUT`). -/
structure WaitEvent where
  now : Int
  wait_r : Int
deriving DecidableEq, Repr

/-- Embeds `reproc_wait` (reproc.c 418-442): guards, the cached-status
fast path, the deadline sentinel translation and the OS wait. -/
def reproc_wait (p : reproc_t) (timeout : Int) (ev : WaitEvent) :
    Int × reproc_t × List OsCall :=
  if p.status = STATUS_IN_CHILD then (REPROC_EINVAL, p, [])
  else if p.status = STATUS_NOT_STARTED then (REPROC_EINVAL, p, [])
  else if p.status ≥ 0 then (p.status, p, [])
  else
    let timeout := if timeout = REPROC_DEADLINE then
        expiry REPROC_INFINITE p.deadline ev.now
      else timeout
    let _ := timeout
    if ev.wait_r < 0 then (ev.wait_r, p, [OsCall.procwait])
    else (ev.wait_r, { p with status := ev.wait_r }, [OsCall.procwait])

/-- Embeds `reproc_terminate` (reproc.c 444-455); `sig_r` is the
`process_terminate` result.  After the child has been reaped
(`status ≥ 0`) it returns 0 without signalling. -/
def reproc_terminate (p : reproc_t) (sig_r : Int) :
    Int × reproc_t × List OsCall :=
  if p.status = STATUS_IN_CHILD then (REPROC_EINVAL, p, [])
  else if p.status = STATUS_NOT_STARTED then (REPROC_EINVAL, p, [])
  else if p.status ≥ 0 then (0, p, [])
  else (sig_r, p, [OsCall.signal])

/-- Embeds `reproc_kill` (reproc.c 457-468); same shape as
`reproc_terminate` with `process_kill`. -/
def reproc_kill (p : reproc_t) (sig_r : Int) :
    Int × reproc_t × List OsCall :=
  if p.status = STATUS_IN_CHILD then (REPROC_EINVAL, p, [])
  else if p.status = STATUS_NOT_STARTED then (REPROC_EINVAL, p, [])
  else if p.status ≥ 0 then (0, p, [])
  else (sig_r, p, [OsCall.signal])

/-! ### `reproc_start` -/

/-- The input-feeding loop of `reproc_start` (reproc.c 248-261): write
until `written ≥ size`, aborting on the first negative result.  One
oracle event per `reproc_write` call; `none` means the oracle schedule
ended before the loop did.  A completed loop yields result `0`. -/
def feed_input (size : Nat) :
    Nat → List WriteEvent → reproc_t → Option (Int × reproc_t)
  | written, [], p => if size ≤ written then some (0, p) else none
  | written, ev :: rest, p =>
    if size ≤ written then some (0, p)
    else
      match reproc_write p false (size - written) ev with
      | (r, p', _) =>
        if r < 0 then some (r, p')
        else feed_input size (written + r.toNat) rest p'

/-- Oracle for one `reproc_start` call: the `init` result, the three
redirect outcomes (an error, or the parent-side handle installed for that
stream), the write oracle for the initial-input loop, the
`process_start` result (negative error, `0` in the fork child, positive
in the parent) and the clock value used to arm the deadline. -/
structure StartOracle where
  init_r : Int
  red_in : Except Int Int
  red_out : Except Int Int
  red_err : Except Int Int
  write_evs : List WriteEvent
  process_start_r : Int
  now : Int
deriving DecidableEq, Repr

/-- The `finish:` block of `reproc_start` (reproc.c 289-314): on error
every parent-side resource is released and the status is untouched; in
the fork child everything is released and the status becomes
`STATUS_IN_CHILD`; in the parent the status becomes
`STATUS_IN_PROGRESS`. -/
def start_finish (r : Int) (p : reproc_t) : Int × reproc_t :=
  if r < 0 then
    (r, { p with handle := PROCESS_INVALID, stdio_in := PIPE_INVALID
                 stdio_out := PIPE_INVALID, stdio_err := PIPE_INVALID })
  else if r = 0 then
    (r, { p with handle := PROCESS_INVALID, stdio_in := PIPE_INVALID
                 stdio_out := PIPE_INVALID, stdio_err := PIPE_INVALID
                 status := STATUS_IN_CHILD })
  else (r, { p with status := STATUS_IN_PROGRESS })

/-- The tail of `reproc_start` after the initial-input feed (reproc.c
263-287 plus the `finish` block): `reproc_close` on stdin when an input
was fed (`stdio_in := PIPE_INVALID`), then `process_start`; on parent
success the stop plan and the timeout are stored and the deadline is
armed at `now + deadline` unless infinite. -/
def start_after_feed (opts : reproc_options) (orc : StartOracle)
    (rw : Int) (p4 : reproc_t) : Option (Int × reproc_t) :=
  if rw < 0 then some (start_finish rw p4)
  else if orc.process_start_r < 0 then
    some (start_finish orc.process_start_r
      (if opts.input_data then
        { p4 with stdio_in := PIPE_INVALID } else p4))
  else
    some (start_finish orc.process_start_r
      (if orc.process_start_r > 0 then
        { (if opts.input_data then
            { p4 with stdio_in := PIPE_INVALID } else p4) with
          stop := opts.stop
          timeout := opts.timeout
          deadline :=
            if opts.deadline ≠ REPROC_INFINITE then
              orc.now + opts.deadline
            else (if opts.input_data then
                { p4 with stdio_in := PIPE_INVALID }
              else p4).deadline }
      else (if opts.input_data then
          { p4 with stdio_in := PIPE_INVALID } else p4)))

/-- Embeds `reproc_start` (reproc.c 206-315): the status guard, `init`,
`parse_options`, the three redirections, the optional initial-input feed
followed by `reproc_close` on stdin, `process_start`, the stop-plan /
timeout / deadline arming, and the `finish` block.  `process_start_r = 0`
is the fork-child return (spec §3: with `fork` set, `start` returns
distinct indicators in parent and child; the POSIX `process_start` is not
among the sources). -/
def reproc_start (p : reproc_t) (argv : Option (List String))
    (o : reproc_options) (orc : StartOracle) : Option (Int × reproc_t) :=
  if p.status ≠ STATUS_NOT_STARTED then some (REPROC_EINVAL, p)
  else if orc.init_r < 0 then some (start_finish orc.init_r p)
  else
    match parse_options argv o with
    | Except.error e => some (start_finish e p)
    | Except.ok opts =>
      match orc.red_in with
      | Except.error e => some (start_finish e p)
      | Except.ok hin =>
        match orc.red_out with
        | Except.error e =>
          some (start_finish e { p with stdio_in := hin })
        | Except.ok hout =>
          match orc.red_err with
          | Except.error e =>
            some (start_finish e
              { p with stdio_in := hin, stdio_out := hout })
          | Except.ok herr =>
            match (if opts.input_data then
                feed_input opts.input_size 0 orc.write_evs
                  { p with stdio_in := hin, stdio_out := hout,
                           stdio_err := herr }
              else some (0, { p with stdio_in := hin, stdio_out := hout,
                                     stdio_err := herr })) with
            | none => none
            | some (rw, p4) => start_after_feed opts orc rw p4

/-! ### `reproc_drain` -/

/-- One recorded sink invocation: which sink ran, with which stream tag
and chunk size. -/
inductive SinkCall
  | out_call (stream : REPROC_STREAM) (size : Nat)
  | err_call (stream : REPROC_STREAM) (size : Nat)
deriving DecidableEq, Repr

/-- The read/dispatch loop of `reproc_drain` (sink.c 29-44): read, stop
on errors, dispatch the whole chunk to the stdout sink when the tag is
`OUT` and to the stderr sink otherwise, stop when a sink returns false.
The loop exit maps `REPROC_EPIPE` to 0 (sink.c 46).  Sinks are modelled
as state-passing functions from (stream tag, chunk size) to a
continue/stop flag; `tr` accumulates the recorded sink invocations. -/
def reproc_drain_loop {σo σe : Type}
    (out : REPROC_STREAM → Nat → σo → Bool × σo)
    (err : REPROC_STREAM → Nat → σe → Bool × σe) :
    reproc_t → σo → σe → List (List ReadEvent) → List SinkCall →
      Option (Int × reproc_t × σo × σe × List SinkCall)
  | _, _, _, [], _ => none
  | p, so, se, evs :: rest, tr =>
    match reproc_read p false evs with
    | none => none
    | some (r, p', tag, _) =>
      if r < 0 then
        some (if r = REPROC_EPIPE then 0 else r, p', so, se, tr)
      else
        let stream := tag.getD REPROC_STREAM.IN
        if stream = REPROC_STREAM.OUT then
          match out stream r.toNat so with
          | (b, so') =>
            let tr' := tr ++ [SinkCall.out_call stream r.toNat]
            if b then reproc_drain_loop out err p' so' se rest tr'
            else some (if r = REPROC_EPIPE then 0 else r, p', so', se, tr')
        else
          match err stream r.toNat se with
          | (b, se') =>
            let tr' := tr ++ [SinkCall.err_call stream r.toNat]
            if b then reproc_drain_loop out err p' so se' rest tr'
            else some (if r = REPROC_EPIPE then 0 else r, p', so, se', tr')

/-- Embeds `reproc_drain` (sink.c 9-47): first the stdout sink is invoked
once with a zero-length buffer and the synthetic `IN` tag; because the C
condition short-circuits (`!out.function(...) || !err.function(...)`),
the stderr sink's initial invocation only happens when the stdout sink
returned true; if either returns false the function returns 0 without
reading.  Then the read/dispatch loop runs. -/
def reproc_drain {σo σe : Type} (p : reproc_t)
    (out : REPROC_STREAM → Nat → σo → Bool × σo)
    (err : REPROC_STREAM → Nat → σe → Bool × σe)
    (so : σo) (se : σe) (evss : List (List ReadEvent)) :
    Option (Int × reproc_t × σo × σe × List SinkCall) :=
  match out REPROC_STREAM.IN 0 so with
  | (false, so') =>
    some (0, p, so', se, [SinkCall.out_call REPROC_STREAM.IN 0])
  | (true, so') =>
    match err REPROC_STREAM.IN 0 se with
    | (false, se') =>
      some (0, p, so', se',
        [SinkCall.out_call REPROC_STREAM.IN 0,
         SinkCall.err_call REPROC_STREAM.IN 0])
    | (true, se') =>
      reproc_drain_loop out err p so' se' evss
        [SinkCall.out_call REPROC_STREAM.IN 0,
         SinkCall.err_call REPROC_STREAM.IN 0]

/-! ### `path_is_relative` (posix/process.c 49-52) -/

/-- C `strchr(s, c)` for a non-NUL `c`: the character found at the first
occurrence, or `none` for the NULL pointer returned when `c` does not
occur. -/
def strchr (s : List Char) (c : Char) : Option Char :=
  s.find? (fun ch => ch == c)

/-- Embeds `path_is_relative` (posix/process.c 49-52):
`strlen(path) > 0 && path[0] != '/' && *strchr(path + 1, '/') != '\0'`
with C short-circuit evaluation.  The third conjunct dereferences the
`strchr` result unconditionally, so when no '/' occurs after the first
character the dereference of the NULL pointer is undefined behaviour,
modelled as `none`. -/
def path_is_relative (path : List Char) : Option Bool :=
  match path with
  | [] => some false
  | c0 :: rest =>
    if c0 = '/' then some false
    else
      match strchr rest '/' with
      | none => none
      | some ch => some (ch != Char.ofNat 0)

/-- The `working_directory` block of `process_create`
(posix/process.c 216-237), restricted to the decision whether the
CWD-prepending fixup runs on `program = argv[0]`: with no working
directory the block is skipped; with one, `path_is_relative` is
evaluated first, so its undefined behaviour (`none`) propagates. -/
def process_create_fixup_applies (working_directory : Option String)
    (program : List Char) : Option Bool :=
  match working_directory with
  | none => some false
  | some _ => path_is_relative program

/-- Engine-state builder (an all-noop stop plan) used for the concrete
instances appearing in the theorems below. -/
def mk_engine (handle stdio_in stdio_out stdio_err status timeout
    deadline : Int) : reproc_t :=
  { handle := handle
    stdio_in := stdio_in
    stdio_out := stdio_out
    stdio_err := stdio_err
    status := status
    stop := ⟨⟨REPROC_STOP_NOOP, 0⟩, ⟨REPROC_STOP_NOOP, 0⟩, ⟨REPROC_STOP_NOOP, 0⟩⟩
    timeout := timeout
    deadline := deadline }

/-! ### C1 -/

/-- C1 counterexample: the public constants are `UINT8_MAX + 15 = 270` and
`UINT8_MAX + 9 = 264`, not 271 and 265, and `parse_exit_status` applied to
the raw wait status `15` (child terminated by SIGTERM) yields the bare
signal number 15, not `256 + 15`. -/
theorem C1_counterexample :
    ¬(REPROC_SIGTERM = 271 ∧ REPROC_SIGKILL = 265 ∧
      parse_exit_status 15 = 256 + 15) := by
  decide

/-- C1 (amended): a normal exit yields the low-8-bit exit code (0..255);
a signal termination yields the bare signal number (SIGTERM → 15,
SIGKILL → 9); the public constants satisfy `REPROC_SIGTERM = 270` and
`REPROC_SIGKILL = 264` (that is, `UINT8_MAX + signal`); every parsed exit
status is at most 255. -/
theorem C1_parse_exit_status_amended :
    (∀ code : Fin 256, parse_exit_status (256 * code.val) = code.val) ∧
    (∀ sig : Fin 128, parse_exit_status sig.val = sig.val) ∧
    parse_exit_status 15 = 15 ∧ parse_exit_status 9 = 9 ∧
    REPROC_SIGTERM = 270 ∧ REPROC_SIGKILL = 264 ∧
    (∀ status : Nat, parse_exit_status status ≤ 255) := by
  refine ⟨?_, ?_, by decide, by decide, by decide, by decide, ?_⟩
  · intro code
    have h1 : 256 * code.val % 128 = 0 := by omega
    have h2 : 256 * code.val / 256 = code.val := by omega
    simp [parse_exit_status, WIFEXITED, WEXITSTATUS, h1, h2,
      Nat.mod_eq_of_lt code.isLt]
  · intro sig
    have hlt : sig.val % 128 = sig.val := Nat.mod_eq_of_lt sig.isLt
    unfold parse_exit_status WIFEXITED WEXITSTATUS WTERMSIG
    by_cases h0 : sig.val = 0
    · simp [h0]
    · have hc : (sig.val % 128 == 0) = false := by simp [hlt, h0]
      simp [hc, hlt]
      omega
  · intro status
    unfold parse_exit_status WIFEXITED WEXITSTATUS WTERMSIG
    by_cases h : status % 128 == 0 <;> simp [h] <;> omega

/-! ### Stage lemmas for `parse_options` -/

@[simp] lemma apply_inherit_environment (o : reproc_options) :
    (apply_inherit o).environment = o.environment := by
  unfold apply_inherit; split <;> rfl

@[simp] lemma apply_inherit_timeout (o : reproc_options) :
    (apply_inherit o).timeout = o.timeout := by
  unfold apply_inherit; split <;> rfl

@[simp] lemma apply_inherit_deadline (o : reproc_options) :
    (apply_inherit o).deadline = o.deadline := by
  unfold apply_inherit; split <;> rfl

@[simp] lemma apply_inherit_stop (o : reproc_options) :
    (apply_inherit o).stop = o.stop := by
  unfold apply_inherit; split <;> rfl

@[simp] lemma apply_inherit_fork (o : reproc_options) :
    (apply_inherit o).fork = o.fork := by
  unfold apply_inherit; split <;> rfl

@[simp] lemma apply_inherit_input_data (o : reproc_options) :
    (apply_inherit o).input_data = o.input_data := by
  unfold apply_inherit; split <;> rfl

@[simp] lemma apply_inherit_input_size (o : reproc_options) :
    (apply_inherit o).input_size = o.input_size := by
  unfold apply_inherit; split <;> rfl

@[simp] lemma apply_inherit_inherit (o : reproc_options) :
    (apply_inherit o).inherit = o.inherit := by
  unfold apply_inherit; split <;> rfl

@[simp] lemma apply_inherit_discard (o : reproc_options) :
    (apply_inherit o).discard = o.discard := by
  unfold apply_inherit; split <;> rfl

@[simp] lemma apply_inherit_of_false (o : reproc_options)
    (h : o.inherit = false) : apply_inherit o = o := by
  unfold apply_inherit; simp [h]

@[simp] lemma apply_discard_environment (o : reproc_options) :
    (apply_discard o).environment = o.environment := by
  unfold apply_discard; split <;> rfl

@[simp] lemma apply_discard_timeout (o : reproc_options) :
    (apply_discard o).timeout = o.timeout := by
  unfold apply_discard; split <;> rfl

@[simp] lemma apply_discard_deadline (o : reproc_options) :
    (apply_discard o).deadline = o.deadline := by
  unfold apply_discard; split <;> rfl

@[simp] lemma apply_discard_stop (o : reproc_options) :
    (apply_discard o).stop = o.stop := by
  unfold apply_discard; split <;> rfl

@[simp] lemma apply_discard_fork (o : reproc_options) :
    (apply_discard o).fork = o.fork := by
  unfold apply_discard; split <;> rfl

@[simp] lemma apply_discard_input_data (o : reproc_options) :
    (apply_discard o).input_data = o.input_data := by
  unfold apply_discard; split <;> rfl

@[simp] lemma apply_discard_input_size (o : reproc_options) :
    (apply_discard o).input_size = o.input_size := by
  unfold apply_discard; split <;> rfl

@[simp] lemma apply_discard_inherit (o : reproc_options) :
    (apply_discard o).inherit = o.inherit := by
  unfold apply_discard; split <;> rfl

@[simp] lemma apply_discard_discard (o : reproc_options) :
    (apply_discard o).discard = o.discard := by
  unfold apply_discard; split <;> rfl

@[simp] lemma apply_discard_of_false (o : reproc_options)
    (h : o.discard = false) : apply_discard o = o := by
  unfold apply_discard; simp [h]

@[simp] lemma normalize_timeouts_stop (o : reproc_options) :
    (normalize_timeouts o).stop = o.stop := rfl

@[simp] lemma normalize_timeouts_timeout (o : reproc_options) :
    (normalize_timeouts o).timeout =
      (if o.timeout == 0 then REPROC_INFINITE
       else if o.timeout == REPROC_NONBLOCKING then 0 else o.timeout) := rfl

@[simp] lemma normalize_timeouts_deadline (o : reproc_options) :
    (normalize_timeouts o).deadline =
      (if o.deadline == 0 then REPROC_INFINITE else o.deadline) := rfl

@[simp] lemma apply_default_stop_timeout (o : reproc_options) :
    (apply_default_stop o).timeout = o.timeout := by
  unfold apply_default_stop; split <;> rfl

@[simp] lemma apply_default_stop_deadline (o : reproc_options) :
    (apply_default_stop o).deadline = o.deadline := by
  unfold apply_default_stop; split <;> rfl

lemma apply_default_stop_stop (o : reproc_options) :
    (apply_default_stop o).stop =
      (if stop_is_noop o.stop then
        ⟨⟨REPROC_STOP_WAIT, REPROC_DEADLINE⟩,
         ⟨REPROC_STOP_TERMINATE, REPROC_INFINITE⟩, o.stop.third⟩
       else o.stop) := by
  unfold apply_default_stop; split <;> simp_all

/-- On success, `parse_options` returns exactly the four update stages
applied to the input options. -/
lemma parse_options_ok_shape (argv : Option (List String))
    (o : reproc_options) (r : reproc_options)
    (h : parse_options argv o = Except.ok r) :
    r = apply_default_stop
      (normalize_timeouts (apply_discard (apply_inherit o))) := by
  unfold parse_options at h
  iterate 6 (all_goals try split at h)
  all_goals simp_all

/-! ### C5 -/

/-- C5: if and only if all three stop actions in the options are noop,
`reproc_start` (via `parse_options`) installs the default stop plan: the
first slot becomes `{WAIT, DEADLINE}`, the second `{TERMINATE, INFINITE}`,
the third stays noop; otherwise the caller-supplied plan is kept
unmodified.  The destructor replays the stored plan exactly when the
engine is still running. -/
theorem C5_default_stop_plan (argv : Option (List String))
    (o r : reproc_options) (h : parse_options argv o = Except.ok r) :
    (stop_is_noop o.stop = true →
      r.stop = ⟨⟨REPROC_STOP_WAIT, REPROC_DEADLINE⟩,
                ⟨REPROC_STOP_TERMINATE, REPROC_INFINITE⟩, o.stop.third⟩ ∧
      r.stop.third.action = REPROC_STOP_NOOP) ∧
    (stop_is_noop o.stop = false → r.stop = o.stop) ∧
    (∀ p : reproc_t, p.status = STATUS_IN_PROGRESS → p.stop = r.stop →
      reproc_destroy_stop_plan p = some r.stop) ∧
    (∀ p : reproc_t, p.status ≠ STATUS_IN_PROGRESS →
      reproc_destroy_stop_plan p = none) := by
  have hs := parse_options_ok_shape argv o r h
  subst hs
  rw [apply_default_stop_stop]
  simp only [normalize_timeouts_stop, apply_discard_stop, apply_inherit_stop]
  refine ⟨?_, ?_, ?_, ?_⟩
  · intro hn
    unfold stop_is_noop at hn
    simp only [Bool.and_eq_true, beq_iff_eq] at hn
    simp [stop_is_noop, hn.1.1, hn.1.2, hn.2]
  · intro hn
    simp [hn]
  · intro p h1 h2
    unfold reproc_destroy_stop_plan
    simp [h1, h2]
  · intro p h1
    unfold reproc_destroy_stop_plan
    simp [h1]

/-- C5 witness: default (all-noop) options passed through `parse_options`
yield the default stop plan, and a running engine's destructor replays
exactly that plan. -/
theorem C5_default_stop_plan_witness :
    ∃ r : reproc_options, parse_options (some ["run"]) {} = Except.ok r ∧
      r.stop = ⟨⟨REPROC_STOP_WAIT, REPROC_DEADLINE⟩,
                ⟨REPROC_STOP_TERMINATE, REPROC_INFINITE⟩,
                ⟨REPROC_STOP_NOOP, 0⟩⟩ ∧
      reproc_destroy_stop_plan
        { handle := 7, stdio_in := 3, stdio_out := 4, stdio_err := 5
          status := STATUS_IN_PROGRESS, stop := r.stop
          timeout := REPROC_INFINITE, deadline := REPROC_INFINITE } =
        some r.stop := by
  have hok : parse_options (some ["run"]) {} = Except.ok
      (apply_default_stop
        (normalize_timeouts (apply_discard (apply_inherit {})))) := by rfl
  have hc := C5_default_stop_plan (some ["run"]) {} _ hok
  refine ⟨_, hok, ?_, hc.2.2.1 _ rfl rfl⟩
  rw [(hc.1 (by decide)).1]

/-! ### C10 -/

/-- C10: option normalization maps a caller-supplied per-call timeout of 0
to infinite (−1), maps `REPROC_NONBLOCKING` (−3) to 0, leaves other
timeouts alone, maps a deadline of 0 to infinite, and the stored timeout
is 0 (non-blocking I/O) exactly when the caller passed the −3 sentinel. -/
theorem C10_timeout_normalization (argv : Option (List String))
    (o r : reproc_options) (h : parse_options argv o = Except.ok r) :
    (o.timeout = 0 → r.timeout = REPROC_INFINITE) ∧
    (o.timeout = REPROC_NONBLOCKING → r.timeout = 0) ∧
    (o.timeout ≠ 0 → o.timeout ≠ REPROC_NONBLOCKING →
      r.timeout = o.timeout) ∧
    (o.deadline = 0 → r.deadline = REPROC_INFINITE) ∧
    (r.timeout = 0 ↔ o.timeout = REPROC_NONBLOCKING) := by
  have hs := parse_options_ok_shape argv o r h
  subst hs
  simp only [apply_default_stop_timeout, apply_default_stop_deadline,
    normalize_timeouts_timeout, normalize_timeouts_deadline,
    apply_discard_timeout, apply_inherit_timeout, apply_discard_deadline,
    apply_inherit_deadline]
  by_cases h0 : o.timeout = 0
  · simp [h0, REPROC_INFINITE, REPROC_NONBLOCKING] <;> tauto
  · by_cases h3 : o.timeout = REPROC_NONBLOCKING
    · simp [h0, h3, REPROC_NONBLOCKING] <;> tauto
    · by_cases hd : o.deadline = 0 <;>
        simp [h0, h3, hd, REPROC_INFINITE, REPROC_NONBLOCKING] <;> tauto

/-- C10 witness: options requesting non-blocking I/O with the −3 sentinel
and a zero deadline are normalized to a zero timeout and an infinite
deadline. -/
theorem C10_timeout_normalization_witness :
    ∃ r : reproc_options,
      parse_options none
        { fork := true, timeout := REPROC_NONBLOCKING, deadline := 0 } =
        Except.ok r ∧
      r.timeout = 0 ∧ r.deadline = REPROC_INFINITE := by
  have hok : parse_options none
      { fork := true, timeout := REPROC_NONBLOCKING, deadline := 0 } =
      Except.ok (apply_default_stop (normalize_timeouts (apply_discard
        (apply_inherit
          { fork := true, timeout := REPROC_NONBLOCKING,
            deadline := 0 })))) := by rfl
  have hc := C10_timeout_normalization none _ _ hok
  exact ⟨_, hok, hc.2.1 rfl, hc.2.2.2.1 rfl⟩

/-! ### C8 -/

/-- C8: `parse_options` (and hence `reproc_start`) returns
`REPROC_EINVAL` when the options set both inherit and discard, when
either shorthand is combined with an explicit per-stream redirect mode,
when an initial input is supplied together with an explicit stdin
redirect or with a null data pointer or a zero size, when fork is unset
and argv is NULL or argv[0] is NULL, or when fork is set and argv is
non-NULL. -/
theorem C8_parse_options_invalid (argv : Option (List String))
    (o : reproc_options)
    (h : (o.inherit = true ∧ o.discard = true) ∨
      ((o.inherit = true ∨ o.discard = true) ∧
        (o.redirect_in ≠ 0 ∨ o.redirect_out ≠ 0 ∨ o.redirect_err ≠ 0)) ∨
      (o.input_data = true ∧ o.input_size > 0 ∧ o.redirect_in ≠ 0) ∨
      (o.input_data = false ∧ o.input_size > 0) ∨
      (o.input_data = true ∧ o.input_size = 0) ∨
      (o.fork = false ∧ (argv = none ∨ argv = some [])) ∨
      (o.fork = true ∧ argv ≠ none)) :
    parse_options argv o = Except.error REPROC_EINVAL := by
  unfold parse_options
  iterate 6 (split; · rfl)
  exfalso
  rcases h with ⟨h1, h2⟩ | ⟨h1, h2⟩ | ⟨h1, h2, h3⟩ | ⟨h1, h2⟩ | ⟨h1, h2⟩ |
    ⟨h1, h2⟩ | ⟨h1, h2⟩
  all_goals simp_all

/-- C8 witness: setting both the inherit and discard shorthands makes
`parse_options` fail with `REPROC_EINVAL`. -/
theorem C8_parse_options_invalid_witness :
    parse_options (some ["run"]) { inherit := true, discard := true } =
      Except.error REPROC_EINVAL :=
  C8_parse_options_invalid (some ["run"])
    { inherit := true, discard := true } (Or.inl ⟨rfl, rfl⟩)

lemma REPROC_INFINITE_eq : REPROC_INFINITE = -1 := rfl

/-! ### C2 -/

/-- C2 counterexample: on a running engine whose deadline has passed
(effective bound 0), a write on an already-closed stdin returns
`REPROC_EPIPE`, a write with a NULL buffer returns 0, and a read with a
NULL buffer returns `REPROC_EINVAL` — none of them `REPROC_ETIMEDOUT`,
though all without an OS call. -/
theorem C2_counterexample :
    expiry REPROC_INFINITE 100 150 = 0 ∧
    reproc_write
        (mk_engine 9 PIPE_INVALID 4 5 STATUS_IN_PROGRESS REPROC_INFINITE 100)
        false 4 ⟨150, 7⟩ =
      (REPROC_EPIPE,
        mk_engine 9 PIPE_INVALID 4 5 STATUS_IN_PROGRESS REPROC_INFINITE 100,
        []) ∧
    REPROC_EPIPE ≠ REPROC_ETIMEDOUT ∧
    reproc_write (mk_engine 9 3 4 5 STATUS_IN_PROGRESS REPROC_INFINITE 100)
        true 0 ⟨150, 7⟩ =
      (0, mk_engine 9 3 4 5 STATUS_IN_PROGRESS REPROC_INFINITE 100, []) ∧
    (0 : Int) ≠ REPROC_ETIMEDOUT ∧
    reproc_read (mk_engine 9 3 4 5 STATUS_IN_PROGRESS REPROC_INFINITE 100)
        true [⟨150, Except.ok 4, 1⟩] =
      some (REPROC_EINVAL,
        mk_engine 9 3 4 5 STATUS_IN_PROGRESS REPROC_INFINITE 100, none, []) ∧
    REPROC_EINVAL ≠ REPROC_ETIMEDOUT := by
  decide

/-- C2 (amended): `expiry` computes the extended minimum of the per-call
timeout and the remaining time to the deadline (`spec_effective_bound`),
the infinite sentinel is propagated exactly when both dimensions are
infinite, a past deadline yields zero; whenever the effective value is
zero, a read with a usable buffer and a write with a usable buffer on an
open stdin pipe return `REPROC_ETIMEDOUT` with no OS wait/read/write;
a NULL-buffer write returns 0 and a write on a closed stdin returns
`REPROC_EPIPE`, also without OS calls. -/
theorem C2_effective_timeout_amended :
    (∀ t d now : Int, (t = REPROC_INFINITE ∨ 0 ≤ t) →
      (d = REPROC_INFINITE ∨ 0 ≤ d) →
      expiry t d now = spec_effective_bound t d now) ∧
    (∀ t d now : Int, (t = REPROC_INFINITE ∨ 0 ≤ t) →
      (expiry t d now = REPROC_INFINITE ↔
        (t = REPROC_INFINITE ∧ d = REPROC_INFINITE))) ∧
    (∀ t d now : Int, d ≠ REPROC_INFINITE → d ≤ now → expiry t d now = 0) ∧
    (∀ (p : reproc_t) (ev : ReadEvent) (evs : List ReadEvent),
      p.status = STATUS_IN_PROGRESS →
      expiry p.timeout p.deadline ev.now = 0 →
      reproc_read p false (ev :: evs) =
        some (REPROC_ETIMEDOUT, p, none, [])) ∧
    (∀ (p : reproc_t) (size : Nat) (ev : WriteEvent),
      p.status = STATUS_IN_PROGRESS → p.stdio_in ≠ PIPE_INVALID →
      expiry p.timeout p.deadline ev.now = 0 →
      reproc_write p false size ev = (REPROC_ETIMEDOUT, p, [])) ∧
    (∀ (p : reproc_t) (ev : WriteEvent),
      p.status = STATUS_IN_PROGRESS → reproc_write p true 0 ev = (0, p, [])) ∧
    (∀ (p : reproc_t) (size : Nat) (ev : WriteEvent),
      p.status = STATUS_IN_PROGRESS → p.stdio_in = PIPE_INVALID →
      reproc_write p false size ev = (REPROC_EPIPE, p, [])) := by
  refine ⟨?_, ?_, ?_, ?_, ?_, ?_, ?_⟩
  · intro t d now ht hd
    rw [REPROC_INFINITE_eq] at ht hd
    simp only [expiry, spec_effective_bound, REPROC_INFINITE_eq]
    rcases ht with ht | ht <;> rcases hd with hd | hd <;> subst_vars <;>
      split_ifs <;> omega
  · intro t d now ht
    rw [REPROC_INFINITE_eq] at ht
    simp only [expiry, REPROC_INFINITE_eq]
    split_ifs with h1 h2 h3 h4
    · simp [h1.1, h1.2]
    · simp [h2]
    · constructor
      · intro hc; exact absurd hc (by norm_num)
      · rintro ⟨hta, hda⟩; exact absurd hda h2
    · constructor
      · intro hc; omega
      · rintro ⟨hta, hda⟩; exact absurd hda h2
    · rcases ht with h | h
      · exact absurd h h4
      · constructor
        · intro hc; omega
        · rintro ⟨hta, hda⟩; exact absurd hta h4
  · intro t d now h1 h2
    rw [REPROC_INFINITE_eq] at h1
    simp only [expiry, REPROC_INFINITE_eq]
    split_ifs with hh1 hh2 hh3 <;> omega
  · intro p ev evs hs hexp
    have h1 : p.status ≠ STATUS_IN_CHILD := by
      rw [hs]; unfold STATUS_IN_PROGRESS STATUS_IN_CHILD; omega
    unfold reproc_read
    simp [h1, reproc_read_loop, hexp]
  · intro p size ev hs hin hexp
    have h1 : p.status ≠ STATUS_IN_CHILD := by
      rw [hs]; unfold STATUS_IN_PROGRESS STATUS_IN_CHILD; omega
    unfold reproc_write
    simp [h1, hin, hexp]
  · intro p ev hs
    have h1 : p.status ≠ STATUS_IN_CHILD := by
      rw [hs]; unfold STATUS_IN_PROGRESS STATUS_IN_CHILD; omega
    unfold reproc_write
    simp [h1]
  · intro p size ev hs hin
    have h1 : p.status ≠ STATUS_IN_CHILD := by
      rw [hs]; unfold STATUS_IN_PROGRESS STATUS_IN_CHILD; omega
    unfold reproc_write
    simp [h1, hin]

/-- C2 witness: the amended theorem applied at concrete instances. -/
theorem C2_effective_timeout_amended_witness :
    expiry 5 100 90 = spec_effective_bound 5 100 90 ∧
    (expiry REPROC_INFINITE REPROC_INFINITE 42 = REPROC_INFINITE ↔
      (REPROC_INFINITE = REPROC_INFINITE ∧
        REPROC_INFINITE = REPROC_INFINITE)) ∧
    expiry 5 100 150 = 0 ∧
    reproc_read (mk_engine 9 3 4 5 STATUS_IN_PROGRESS REPROC_INFINITE 100)
        false [⟨150, Except.ok 4, 1⟩] =
      some (REPROC_ETIMEDOUT,
        mk_engine 9 3 4 5 STATUS_IN_PROGRESS REPROC_INFINITE 100, none, []) ∧
    reproc_write (mk_engine 9 3 4 5 STATUS_IN_PROGRESS REPROC_INFINITE 100)
        false 4 ⟨150, 7⟩ =
      (REPROC_ETIMEDOUT,
        mk_engine 9 3 4 5 STATUS_IN_PROGRESS REPROC_INFINITE 100, []) ∧
    reproc_write (mk_engine 9 3 4 5 STATUS_IN_PROGRESS REPROC_INFINITE 100)
        true 0 ⟨150, 7⟩ =
      (0, mk_engine 9 3 4 5 STATUS_IN_PROGRESS REPROC_INFINITE 100, []) ∧
    reproc_write
        (mk_engine 9 PIPE_INVALID 4 5 STATUS_IN_PROGRESS REPROC_INFINITE 100)
        false 4 ⟨150, 7⟩ =
      (REPROC_EPIPE,
        mk_engine 9 PIPE_INVALID 4 5 STATUS_IN_PROGRESS REPROC_INFINITE 100,
        []) := by
  refine ⟨C2_effective_timeout_amended.1 5 100 90 (Or.inr (by norm_num))
      (Or.inr (by norm_num)),
    C2_effective_timeout_amended.2.1 REPROC_INFINITE REPROC_INFINITE 42
      (Or.inl rfl),
    C2_effective_timeout_amended.2.2.1 5 100 150 (by decide) (by norm_num),
    C2_effective_timeout_amended.2.2.2.1 _ _ _ rfl (by decide),
    C2_effective_timeout_amended.2.2.2.2.1 _ 4 _ rfl (by decide) (by decide),
    C2_effective_timeout_amended.2.2.2.2.2.1 _ _ rfl,
    C2_effective_timeout_amended.2.2.2.2.2.2 _ 4 _ rfl (by decide)⟩

/-! ### C6 -/

/-- C6: once the engine's status is a stored exit code (`status ≥ 0`),
`reproc_wait` returns the stored code immediately with no OS wait, and
`reproc_terminate` and `reproc_kill` return success without signalling
the OS process; no OS call is made at all. -/
theorem C6_exited_no_os (p : reproc_t) (t : Int) (ev : WaitEvent)
    (sig_r : Int) (h : 0 ≤ p.status) :
    reproc_wait p t ev = (p.status, p, []) ∧
    reproc_terminate p sig_r = (0, p, []) ∧
    reproc_kill p sig_r = (0, p, []) := by
  have h1 : p.status ≠ STATUS_IN_CHILD := by
    unfold STATUS_IN_CHILD; omega
  have h2 : p.status ≠ STATUS_NOT_STARTED := by
    unfold STATUS_NOT_STARTED; omega
  unfold reproc_wait reproc_terminate reproc_kill
  simp [h1, h2, h]

/-- C6 witness: a reaped engine with stored exit code 7. -/
theorem C6_exited_no_os_witness :
    reproc_wait (mk_engine 9 PIPE_INVALID PIPE_INVALID PIPE_INVALID 7
        REPROC_INFINITE REPROC_INFINITE) 1000 ⟨0, 3⟩ =
      (7, mk_engine 9 PIPE_INVALID PIPE_INVALID PIPE_INVALID 7
        REPROC_INFINITE REPROC_INFINITE, []) ∧
    reproc_terminate (mk_engine 9 PIPE_INVALID PIPE_INVALID PIPE_INVALID 7
        REPROC_INFINITE REPROC_INFINITE) 0 =
      (0, mk_engine 9 PIPE_INVALID PIPE_INVALID PIPE_INVALID 7
        REPROC_INFINITE REPROC_INFINITE, []) ∧
    reproc_kill (mk_engine 9 PIPE_INVALID PIPE_INVALID PIPE_INVALID 7
        REPROC_INFINITE REPROC_INFINITE) 0 =
      (0, mk_engine 9 PIPE_INVALID PIPE_INVALID PIPE_INVALID 7
        REPROC_INFINITE REPROC_INFINITE, []) := by
  have h := C6_exited_no_os (mk_engine 9 PIPE_INVALID PIPE_INVALID
      PIPE_INVALID 7 REPROC_INFINITE REPROC_INFINITE) 1000 ⟨0, 3⟩ 0
      (by decide)
  exact h

/-! ### C9 -/

/-- C9: `path_is_relative` dereferences the result of `strchr` without a
NULL check, so for every non-empty program string that does not start
with '/' and contains no '/' after its first character (such as "cmake")
the evaluation is a null-pointer dereference (modelled `none`), and with
a working directory set, `process_create`'s CWD-prepending fixup decision
inherits that undefined behaviour; paths that do contain a later '/' or
start with '/' are classified normally. -/
theorem C9_path_is_relative_ub :
    path_is_relative ("cmake".toList) = none ∧
    (∀ d : String,
      process_create_fixup_applies (some d) ("cmake".toList) = none) ∧
    (∀ path : List Char, path ≠ [] → path.head? ≠ some '/' →
      '/' ∉ path.tail → path_is_relative path = none) ∧
    path_is_relative ("sub/dir".toList) = some true ∧
    path_is_relative ("/bin".toList) = some false ∧
    process_create_fixup_applies none ("cmake".toList) = some false := by
  refine ⟨by decide, ?_, ?_, by decide, by decide, by decide⟩
  · intro d
    exact (by decide : path_is_relative ("cmake".toList) = none)
  · intro path hne hhead htail
    cases path with
    | nil => exact absurd rfl hne
    | cons c0 rest =>
      have hc0 : c0 ≠ '/' := by
        intro h
        exact hhead (by simp [h])
      have hfind : List.find? (fun ch => ch == '/') rest = none := by
        rw [List.find?_eq_none]
        intro x hx
        simp only [beq_iff_eq]
        intro hxe
        exact htail (by simpa [hxe] using hx)
      unfold path_is_relative strchr
      simp [hc0, hfind]

/-- C9 witness: the universally quantified part applied to the concrete
helper-free program name "cmake". -/
theorem C9_path_is_relative_ub_witness :
    path_is_relative ("cmake".toList) = none :=
  C9_path_is_relative_ub.2.2.1 ("cmake".toList) (by decide) (by decide)
    (by decide)

/-! ### C3 -/

/-- Whenever the read loop reports a stream tag, the result is a byte
count (`≥ 0`): the tag is stored only after the loop breaks on a
successful `pipe_read`. -/
lemma reproc_read_loop_tag_bytes :
    ∀ (evs : List ReadEvent) (p : reproc_t) (acc : List OsCall)
      (r : Int) (p' : reproc_t) (tag : Option REPROC_STREAM)
      (calls : List OsCall),
      reproc_read_loop p evs acc = some (r, p', tag, calls) →
      tag ≠ none → 0 ≤ r := by
  intro evs
  induction evs with
  | nil =>
    intro p acc r p' tag calls h htag
    simp [reproc_read_loop] at h
  | cons ev rest ih =>
    intro p acc r p' tag calls h htag
    rw [reproc_read_loop] at h
    split at h
    · simp_all
    · rcases hw : pipe_wait p.stdio_out p.stdio_err ev.wait_r with ⟨w, calls2⟩
      rw [hw] at h
      cases w with
      | error e => simp_all
      | ok ready =>
        simp only at h
        split at h
        · simp_all
        · split at h
          · simp_all
          · split at h
            · exact ih _ _ _ _ _ _ h htag
            · exact ih _ _ _ _ _ _ h htag

/-- C3: in the `reproc_read` loop, when the pipe selected by the
readiness wait reports closure (`REPROC_EPIPE` from `pipe_read`), that
endpoint is destroyed and the wait is repeated on the remaining pipe;
a stream tag is reported only when bytes were actually transferred; and
with both output pipes closed the call returns `REPROC_EPIPE`
(BrokenPipe). -/
theorem C3_read_closure_reselect :
    (∀ (p : reproc_t) (ev : ReadEvent) (rest : List ReadEvent)
        (acc : List OsCall),
      ¬(p.stdio_out = PIPE_INVALID ∧ p.stdio_err = PIPE_INVALID) →
      expiry p.timeout p.deadline ev.now ≠ 0 →
      ev.wait_r = Except.ok p.stdio_out → ev.read_r = REPROC_EPIPE →
      reproc_read_loop p (ev :: rest) acc =
        reproc_read_loop { p with stdio_out := PIPE_INVALID } rest
          (acc ++ [OsCall.wait, OsCall.read])) ∧
    (∀ (p : reproc_t) (ev : ReadEvent) (rest : List ReadEvent)
        (acc : List OsCall),
      ¬(p.stdio_out = PIPE_INVALID ∧ p.stdio_err = PIPE_INVALID) →
      expiry p.timeout p.deadline ev.now ≠ 0 →
      ev.wait_r = Except.ok p.stdio_err → p.stdio_err ≠ p.stdio_out →
      ev.read_r = REPROC_EPIPE →
      reproc_read_loop p (ev :: rest) acc =
        reproc_read_loop { p with stdio_err := PIPE_INVALID } rest
          (acc ++ [OsCall.wait, OsCall.read])) ∧
    (∀ (p : reproc_t) (buffer_null : Bool) (evs : List ReadEvent)
        (r : Int) (p' : reproc_t) (tag : Option REPROC_STREAM)
        (calls : List OsCall),
      reproc_read p buffer_null evs = some (r, p', tag, calls) →
      tag ≠ none → 0 ≤ r) ∧
    (∀ (p : reproc_t) (ev : ReadEvent) (rest : List ReadEvent)
        (acc : List OsCall),
      p.stdio_out = PIPE_INVALID → p.stdio_err = PIPE_INVALID →
      expiry p.timeout p.deadline ev.now ≠ 0 →
      reproc_read_loop p (ev :: rest) acc =
        some (REPROC_EPIPE, p, none, acc)) := by
  refine ⟨?_, ?_, ?_, ?_⟩
  · intro p ev rest acc hvalid hexp hwait hread
    rw [reproc_read_loop, if_neg hexp]
    unfold pipe_wait
    rw [if_neg hvalid, hwait]
    simp only
    rw [hread]
    simp [REPROC_EPIPE]
  · intro p ev rest acc hvalid hexp hwait hne hread
    rw [reproc_read_loop, if_neg hexp]
    unfold pipe_wait
    rw [if_neg hvalid, hwait]
    simp only
    rw [hread]
    simp [REPROC_EPIPE, hne]
  · intro p buffer_null evs r p' tag calls h htag
    unfold reproc_read at h
    split at h
    · simp_all
    · split at h
      · simp_all
      · exact reproc_read_loop_tag_bytes evs p [] r p' tag calls h htag
  · intro p ev rest acc hout herr hexp
    rw [reproc_read_loop, if_neg hexp]
    unfold pipe_wait
    rw [if_pos ⟨hout, herr⟩]
    simp

/-- C3 witness: the theorem applied at concrete loop states (a closed
stdout pipe is destroyed and reselection happens; a successful read
carries a tag and a non-negative byte count; two closed pipes yield
BrokenPipe). -/
theorem C3_read_closure_reselect_witness :
    reproc_read_loop (mk_engine 9 3 4 5 STATUS_IN_PROGRESS REPROC_INFINITE
        REPROC_INFINITE) [⟨0, Except.ok 4, REPROC_EPIPE⟩] [] = none ∧
    reproc_read_loop (mk_engine 9 3 4 5 STATUS_IN_PROGRESS REPROC_INFINITE
        REPROC_INFINITE) [⟨0, Except.ok 5, REPROC_EPIPE⟩] [] = none ∧
    (0 : Int) ≤ 10 ∧
    reproc_read_loop (mk_engine 9 3 PIPE_INVALID PIPE_INVALID
        STATUS_IN_PROGRESS REPROC_INFINITE REPROC_INFINITE)
        [⟨0, Except.ok 4, 1⟩] [] =
      some (REPROC_EPIPE, mk_engine 9 3 PIPE_INVALID PIPE_INVALID
        STATUS_IN_PROGRESS REPROC_INFINITE REPROC_INFINITE, none, []) := by
  refine ⟨?_, ?_, ?_, ?_⟩
  · exact (C3_read_closure_reselect.1 _ ⟨0, Except.ok 4, REPROC_EPIPE⟩ [] []
      (by decide) (by decide) rfl rfl).trans (by decide)
  · exact (C3_read_closure_reselect.2.1 _ ⟨0, Except.ok 5, REPROC_EPIPE⟩ [] []
      (by decide) (by decide) rfl (by decide) rfl).trans (by decide)
  · exact C3_read_closure_reselect.2.2.1
      (mk_engine 9 3 4 5 STATUS_IN_PROGRESS REPROC_INFINITE REPROC_INFINITE)
      false [⟨0, Except.ok 4, 10⟩] 10
      (mk_engine 9 3 4 5 STATUS_IN_PROGRESS REPROC_INFINITE REPROC_INFINITE)
      (some REPROC_STREAM.OUT) [OsCall.wait, OsCall.read] (by decide)
      (by decide)
  · exact C3_read_closure_reselect.2.2.2 _ ⟨0, Except.ok 4, 1⟩ [] [] rfl rfl
      (by decide)

/-! ### C4 -/

lemma reproc_write_status (p : reproc_t) (buffer_null : Bool) (size : Nat)
    (ev : WriteEvent) :
    (reproc_write p buffer_null size ev).2.1.status = p.status := by
  unfold reproc_write
  split_ifs <;> rfl

lemma feed_input_status (size : Nat) :
    ∀ (evs : List WriteEvent) (written : Nat) (p : reproc_t) (r : Int)
      (p' : reproc_t),
      feed_input size written evs p = some (r, p') → p'.status = p.status := by
  intro evs
  induction evs with
  | nil =>
    intro written p r p' h
    simp only [feed_input] at h
    split at h <;> simp_all
  | cons ev rest ih =>
    intro written p r p' h
    simp only [feed_input] at h
    split at h
    · simp_all
    · rcases hw : reproc_write p false (size - written) ev with ⟨r1, p1, c1⟩
      rw [hw] at h
      have hst : p1.status = p.status := by
        have := reproc_write_status p false (size - written) ev
        rw [hw] at this
        exact this
      simp only at h
      split at h
      · simp_all
      · exact (ih _ _ _ _ h).trans hst

/-- Every terminating run of `reproc_start` on a not-started engine goes
through the `finish:` block applied to an intermediate state whose status
is still `STATUS_NOT_STARTED`. -/
lemma reproc_start_via_finish (p : reproc_t) (argv : Option (List String))
    (o : reproc_options) (orc : StartOracle) (res : Int × reproc_t)
    (hs : p.status = STATUS_NOT_STARTED)
    (h : reproc_start p argv o orc = some res) :
    ∃ (r0 : Int) (ps : reproc_t), ps.status = STATUS_NOT_STARTED ∧
      res = start_finish r0 ps := by
  have hafter : ∀ (opts : reproc_options) (rw : Int) (p4 : reproc_t),
      p4.status = STATUS_NOT_STARTED →
      start_after_feed opts orc rw p4 = some res →
      ∃ (r0 : Int) (ps : reproc_t), ps.status = STATUS_NOT_STARTED ∧
        res = start_finish r0 ps := by
    intro opts rw p4 hp4 hh
    unfold start_after_feed at hh
    split_ifs at hh
    all_goals refine ⟨_, _, ?_, (Option.some.inj hh).symm⟩
    all_goals exact hp4
  unfold reproc_start at h
  rw [if_neg (by simp [hs])] at h
  by_cases hinit : orc.init_r < 0
  · rw [if_pos hinit] at h
    exact ⟨orc.init_r, p, hs, (Option.some.inj h).symm⟩
  rw [if_neg hinit] at h
  cases hpo : parse_options argv o with
  | error e =>
    rw [hpo] at h
    exact ⟨e, p, hs, (Option.some.inj h).symm⟩
  | ok opts =>
  rw [hpo] at h
  cases hri : orc.red_in with
  | error e =>
    rw [hri] at h
    exact ⟨e, p, hs, (Option.some.inj h).symm⟩
  | ok hin =>
  rw [hri] at h
  cases hro : orc.red_out with
  | error e =>
    rw [hro] at h
    refine ⟨e, _, ?_, (Option.some.inj h).symm⟩
    exact hs
  | ok hout =>
  rw [hro] at h
  cases hre : orc.red_err with
  | error e =>
    rw [hre] at h
    refine ⟨e, _, ?_, (Option.some.inj h).symm⟩
    exact hs
  | ok herr =>
  rw [hre] at h
  have h2 : (match (if opts.input_data then
        feed_input opts.input_size 0 orc.write_evs
          { p with stdio_in := hin, stdio_out := hout, stdio_err := herr }
      else some (0, { p with stdio_in := hin, stdio_out := hout,
                             stdio_err := herr })) with
    | none => (none : Option (Int × reproc_t))
    | some (rw, p4) => start_after_feed opts orc rw p4) = some res := h
  by_cases hid : opts.input_data
  · rw [if_pos hid] at h2
    cases hfi : feed_input opts.input_size 0 orc.write_evs
        { p with stdio_in := hin, stdio_out := hout, stdio_err := herr } with
    | none =>
      rw [hfi] at h2
      exact absurd h2 (by simp)
    | some rp =>
      rcases rp with ⟨rw1, p4⟩
      rw [hfi] at h2
      have hp4 : p4.status = STATUS_NOT_STARTED :=
        (feed_input_status _ _ _ _ _ _ hfi).trans hs
      exact hafter opts rw1 p4 hp4 h2
  · rw [if_neg hid] at h2
    exact hafter opts 0
      { p with stdio_in := hin, stdio_out := hout, stdio_err := herr } hs h2

/-- C4 (amended): `reproc_start` on an engine not in `NotStarted` returns
`REPROC_EINVAL` without modifying the engine (so an engine starts at most
once).  On a `NotStarted` engine, a terminating run returns through the
`finish` block: a negative result leaves the engine `NotStarted` with the
process handle and all three parent-side pipe endpoints invalid; a
positive result makes it `Running`; a zero result (the fork-child copy)
makes it `InChild`, also with every handle invalid. -/
theorem C4_start_amended :
    (∀ (p : reproc_t) (argv : Option (List String)) (o : reproc_options)
        (orc : StartOracle), p.status ≠ STATUS_NOT_STARTED →
      reproc_start p argv o orc = some (REPROC_EINVAL, p)) ∧
    (∀ (p : reproc_t) (argv : Option (List String)) (o : reproc_options)
        (orc : StartOracle) (r : Int) (p' : reproc_t),
      p.status = STATUS_NOT_STARTED →
      reproc_start p argv o orc = some (r, p') →
      (r < 0 → p'.status = STATUS_NOT_STARTED ∧
        p'.handle = PROCESS_INVALID ∧ p'.stdio_in = PIPE_INVALID ∧
        p'.stdio_out = PIPE_INVALID ∧ p'.stdio_err = PIPE_INVALID) ∧
      (0 < r → p'.status = STATUS_IN_PROGRESS) ∧
      (r = 0 → p'.status = STATUS_IN_CHILD ∧
        p'.handle = PROCESS_INVALID ∧ p'.stdio_in = PIPE_INVALID ∧
        p'.stdio_out = PIPE_INVALID ∧ p'.stdio_err = PIPE_INVALID)) := by
  constructor
  · intro p argv o orc hs
    unfold reproc_start
    rw [if_pos hs]
  · intro p argv o orc r p' hs h
    obtain ⟨r0, ps, hps, heq⟩ :=
      reproc_start_via_finish p argv o orc (r, p') hs h
    unfold start_finish at heq
    split_ifs at heq with h1 h2
    · injection heq with hr hp
      subst hr
      subst hp
      exact ⟨fun _ => ⟨hps, rfl, rfl, rfl, rfl⟩,
        fun hc => absurd hc (by omega),
        fun hc => absurd hc (by omega)⟩
    · injection heq with hr hp
      subst hr
      subst hp
      exact ⟨fun hc => absurd hc (by omega),
        fun hc => absurd hc (by omega),
        fun _ => ⟨rfl, rfl, rfl, rfl, rfl⟩⟩
    · injection heq with hr hp
      subst hr
      subst hp
      exact ⟨fun hc => absurd hc (by omega),
        fun _ => rfl,
        fun hc => absurd hc (by omega)⟩

/-- C4 counterexample: a fork-mode start in which `process_start` returns
0 (the child copy).  `reproc_start` succeeds — the return value 0 is not
an error — yet the engine's status becomes `STATUS_IN_CHILD`, which is
neither `Running` nor `NotStarted`, refuting the claimed two-way
disjunction. -/
theorem C4_counterexample :
    reproc_start reproc_new none { fork := true }
        { init_r := 0, red_in := Except.ok 10, red_out := Except.ok 11,
          red_err := Except.ok 12, write_evs := [], process_start_r := 0,
          now := 0 } =
      some (0, mk_engine PROCESS_INVALID PIPE_INVALID PIPE_INVALID
        PIPE_INVALID STATUS_IN_CHILD REPROC_INFINITE REPROC_INFINITE) ∧
    STATUS_IN_CHILD ≠ STATUS_IN_PROGRESS ∧
    STATUS_IN_CHILD ≠ STATUS_NOT_STARTED ∧ ¬((0 : Int) < 0) := by
  decide

/-- C4 witness: the amended theorem applied to a started engine (second
start refused) and to a failed start (`init` error −5: engine left
`NotStarted` with every handle invalid). -/
theorem C4_start_amended_witness :
    reproc_start (mk_engine 9 3 4 5 STATUS_IN_PROGRESS REPROC_INFINITE
        REPROC_INFINITE) (some ["run"]) {}
        { init_r := 0, red_in := Except.ok 10, red_out := Except.ok 11,
          red_err := Except.ok 12, write_evs := [], process_start_r := 1,
          now := 0 } =
      some (REPROC_EINVAL, mk_engine 9 3 4 5 STATUS_IN_PROGRESS
        REPROC_INFINITE REPROC_INFINITE) ∧
    (reproc_new.status = STATUS_NOT_STARTED ∧
      reproc_new.handle = PROCESS_INVALID ∧
      reproc_new.stdio_in = PIPE_INVALID ∧
      reproc_new.stdio_out = PIPE_INVALID ∧
      reproc_new.stdio_err = PIPE_INVALID) := by
  constructor
  · exact C4_start_amended.1 _ _ _ _ (by decide)
  · exact (C4_start_amended.2 reproc_new (some ["run"]) {}
      { init_r := -5, red_in := Except.ok 10, red_out := Except.ok 11,
        red_err := Except.ok 12, write_evs := [], process_start_r := 1,
        now := 0 } (-5) reproc_new rfl (by decide)).1 (by norm_num)

/-! ### C7 -/

/-- C7 counterexample: a stdout sink that refuses on the initial
zero-length invocation.  The C condition short-circuits, so `reproc_drain`
returns success (0) with the stderr sink never invoked — it is not called
"exactly once". -/
theorem C7_counterexample :
    reproc_drain (mk_engine 9 3 4 5 STATUS_IN_PROGRESS REPROC_INFINITE
        REPROC_INFINITE) (fun _ _ (_ : Unit) => (false, ()))
        (fun _ _ (_ : Unit) => (true, ())) () () [] =
      some (0, mk_engine 9 3 4 5 STATUS_IN_PROGRESS REPROC_INFINITE
        REPROC_INFINITE, (), (), [SinkCall.out_call REPROC_STREAM.IN 0]) ∧
    List.count (SinkCall.err_call REPROC_STREAM.IN 0)
      [SinkCall.out_call REPROC_STREAM.IN 0] = 0 := by
  exact ⟨rfl, rfl⟩

/-- C7 (amended): `reproc_drain` first invokes the stdout sink once with
a zero-length buffer and the synthetic `IN` tag; only if that returns
true is the stderr sink invoked once likewise; if either returns false
the call returns success (0) before any read.  With both initial calls
accepted, the loop reads and dispatches each chunk whole — `OUT`-tagged
chunks to the stdout sink, all others to the stderr sink — until a sink
returns false or the read errors; a terminal `REPROC_EPIPE` is mapped to
0 and every other error is returned unchanged. -/
theorem C7_drain_amended :
    (∀ {σo σe : Type} (p : reproc_t)
        (out : REPROC_STREAM → Nat → σo → Bool × σo)
        (err : REPROC_STREAM → Nat → σe → Bool × σe)
        (so : σo) (se : σe) (evss : List (List ReadEvent)) (so' : σo),
      out REPROC_STREAM.IN 0 so = (false, so') →
      reproc_drain p out err so se evss =
        some (0, p, so', se, [SinkCall.out_call REPROC_STREAM.IN 0])) ∧
    (∀ {σo σe : Type} (p : reproc_t)
        (out : REPROC_STREAM → Nat → σo → Bool × σo)
        (err : REPROC_STREAM → Nat → σe → Bool × σe)
        (so : σo) (se : σe) (evss : List (List ReadEvent)) (so' : σo)
        (se' : σe),
      out REPROC_STREAM.IN 0 so = (true, so') →
      err REPROC_STREAM.IN 0 se = (false, se') →
      reproc_drain p out err so se evss =
        some (0, p, so', se',
          [SinkCall.out_call REPROC_STREAM.IN 0,
           SinkCall.err_call REPROC_STREAM.IN 0])) ∧
    (∀ {σo σe : Type} (p : reproc_t)
        (out : REPROC_STREAM → Nat → σo → Bool × σo)
        (err : REPROC_STREAM → Nat → σe → Bool × σe)
        (so : σo) (se : σe) (evss : List (List ReadEvent)) (so' : σo)
        (se' : σe),
      out REPROC_STREAM.IN 0 so = (true, so') →
      err REPROC_STREAM.IN 0 se = (true, se') →
      reproc_drain p out err so se evss =
        reproc_drain_loop out err p so' se' evss
          [SinkCall.out_call REPROC_STREAM.IN 0,
           SinkCall.err_call REPROC_STREAM.IN 0]) ∧
    (∀ {σo σe : Type}
        (out : REPROC_STREAM → Nat → σo → Bool × σo)
        (err : REPROC_STREAM → Nat → σe → Bool × σe)
        (p : reproc_t) (so : σo) (se : σe) (evs : List ReadEvent)
        (rest : List (List ReadEvent)) (tr : List SinkCall) (e : Int)
        (p' : reproc_t) (calls : List OsCall),
      reproc_read p false evs = some (e, p', none, calls) → e < 0 →
      reproc_drain_loop out err p so se (evs :: rest) tr =
        some (if e = REPROC_EPIPE then 0 else e, p', so, se, tr)) ∧
    ((if REPROC_EPIPE = REPROC_EPIPE then (0 : Int) else REPROC_EPIPE)
        = 0 ∧
      (∀ e : Int, e ≠ REPROC_EPIPE →
        (if e = REPROC_EPIPE then (0 : Int) else e) = e)) ∧
    (∀ {σo σe : Type}
        (out : REPROC_STREAM → Nat → σo → Bool × σo)
        (err : REPROC_STREAM → Nat → σe → Bool × σe)
        (p : reproc_t) (so : σo) (se : σe) (evs : List ReadEvent)
        (rest : List (List ReadEvent)) (tr : List SinkCall) (r : Int)
        (p' : reproc_t) (calls : List OsCall) (b : Bool) (so' : σo),
      reproc_read p false evs =
        some (r, p', some REPROC_STREAM.OUT, calls) → 0 ≤ r →
      out REPROC_STREAM.OUT r.toNat so = (b, so') →
      reproc_drain_loop out err p so se (evs :: rest) tr =
        (if b then reproc_drain_loop out err p' so' se rest
            (tr ++ [SinkCall.out_call REPROC_STREAM.OUT r.toNat])
          else some (r, p', so', se,
            tr ++ [SinkCall.out_call REPROC_STREAM.OUT r.toNat]))) ∧
    (∀ {σo σe : Type}
        (out : REPROC_STREAM → Nat → σo → Bool × σo)
        (err : REPROC_STREAM → Nat → σe → Bool × σe)
        (p : reproc_t) (so : σo) (se : σe) (evs : List ReadEvent)
        (rest : List (List ReadEvent)) (tr : List SinkCall) (r : Int)
        (p' : reproc_t) (calls : List OsCall) (b : Bool) (se' : σe),
      reproc_read p false evs =
        some (r, p', some REPROC_STREAM.ERR, calls) → 0 ≤ r →
      err REPROC_STREAM.ERR r.toNat se = (b, se') →
      reproc_drain_loop out err p so se (evs :: rest) tr =
        (if b then reproc_drain_loop out err p' so se' rest
            (tr ++ [SinkCall.err_call REPROC_STREAM.ERR r.toNat])
          else some (r, p', so, se',
            tr ++ [SinkCall.err_call REPROC_STREAM.ERR r.toNat]))) := by
  refine ⟨?_, ?_, ?_, ?_, ⟨rfl, fun e he => if_neg he⟩, ?_, ?_⟩
  · intro σo σe p out err so se evss so' hout
    unfold reproc_drain
    rw [hout]
  · intro σo σe p out err so se evss so' se' hout herr
    unfold reproc_drain
    rw [hout, herr]
  · intro σo σe p out err so se evss so' se' hout herr
    unfold reproc_drain
    rw [hout, herr]
  · intro σo σe out err p so se evs rest tr e p' calls hread herr
    simp only [reproc_drain_loop, hread]
    rw [if_pos herr]
  · intro σo σe out err p so se evs rest tr r p' calls b so' hread hr hout
    have hnneg : ¬(r < 0) := by omega
    have hne : ¬(r = REPROC_EPIPE) := by
      intro hc
      rw [hc] at hr
      exact absurd hr (by decide)
    simp only [reproc_drain_loop, hread]
    rw [if_neg hnneg]
    simp only [Option.getD_some]
    rw [hout]
    cases b <;> simp [hne]
  · intro σo σe out err p so se evs rest tr r p' calls b se' hread hr herr
    have hnneg : ¬(r < 0) := by omega
    have hne : ¬(r = REPROC_EPIPE) := by
      intro hc
      rw [hc] at hr
      exact absurd hr (by decide)
    simp only [reproc_drain_loop, hread]
    rw [if_neg hnneg]
    simp only [Option.getD_some]
    rw [herr]
    cases b <;> simp [hne]

/-- C7 witness: the amended theorem applied at concrete runs (stderr
initial refusal, BrokenPipe mapped to success, an `OUT` chunk dispatched
whole to the stdout sink which then stops the loop). -/
theorem C7_drain_amended_witness :
    reproc_drain (mk_engine 9 3 4 5 STATUS_IN_PROGRESS REPROC_INFINITE
        REPROC_INFINITE) (fun _ _ (_ : Unit) => (true, ()))
        (fun _ _ (_ : Unit) => (false, ())) () () [] =
      some (0, mk_engine 9 3 4 5 STATUS_IN_PROGRESS REPROC_INFINITE
        REPROC_INFINITE, (), (),
        [SinkCall.out_call REPROC_STREAM.IN 0,
         SinkCall.err_call REPROC_STREAM.IN 0]) ∧
    reproc_drain_loop (fun _ _ (_ : Unit) => (true, ()))
        (fun _ _ (_ : Unit) => (true, ()))
        (mk_engine 9 3 PIPE_INVALID PIPE_INVALID STATUS_IN_PROGRESS
          REPROC_INFINITE REPROC_INFINITE) () ()
        [[⟨0, Except.ok 4, 1⟩]] [] =
      some (0, mk_engine 9 3 PIPE_INVALID PIPE_INVALID STATUS_IN_PROGRESS
        REPROC_INFINITE REPROC_INFINITE, (), (), []) ∧
    ((if (-5 : Int) = REPROC_EPIPE then (0 : Int) else -5) = -5) ∧
    reproc_drain_loop (fun _ _ (_ : Unit) => (false, ()))
        (fun _ _ (_ : Unit) => (true, ()))
        (mk_engine 9 3 4 5 STATUS_IN_PROGRESS REPROC_INFINITE
          REPROC_INFINITE) () () [[⟨0, Except.ok 4, 10⟩]] [] =
      some (10, mk_engine 9 3 4 5 STATUS_IN_PROGRESS REPROC_INFINITE
        REPROC_INFINITE, (), (),
        [SinkCall.out_call REPROC_STREAM.OUT 10]) := by
  refine ⟨?_, ?_, ?_, ?_⟩
  · exact C7_drain_amended.2.1 _ _ _ _ _ _ _ _ rfl rfl
  · exact (C7_drain_amended.2.2.2.1 _ _
      (mk_engine 9 3 PIPE_INVALID PIPE_INVALID STATUS_IN_PROGRESS
        REPROC_INFINITE REPROC_INFINITE) () () [⟨0, Except.ok 4, 1⟩] [] []
      REPROC_EPIPE
      (mk_engine 9 3 PIPE_INVALID PIPE_INVALID STATUS_IN_PROGRESS
        REPROC_INFINITE REPROC_INFINITE) [] (by decide)
      (by decide)).trans (by decide)
  · exact C7_drain_amended.2.2.2.2.1.2 (-5) (by decide)
  · exact (C7_drain_amended.2.2.2.2.2.1 _ _
      (mk_engine 9 3 4 5 STATUS_IN_PROGRESS REPROC_INFINITE REPROC_INFINITE)
      () () [⟨0, Except.ok 4, 10⟩] [] [] 10
      (mk_engine 9 3 4 5 STATUS_IN_PROGRESS REPROC_INFINITE REPROC_INFINITE)
      [OsCall.wait, OsCall.read] false () (by decide) (by decide)
      rfl).trans (by decide)
